import Mathlib

/-!
Shallow embedding of the actix-web-validation crate: the Validated extractor
wrapper, the extraction-validation pipeline (the poll of ValidatedFut, whose
control flow is identical in lib.rs, validator.rs, custom.rs and garde.rs),
the error-handler registry, the nested-error flattener of error.rs /
validator.rs, and the three backends' default error responses.
-/

/-- Poll result of a future, mirroring std::task::Poll. -/
inductive Poll (α : Type) where
  | ready (a : α)
  | pending
deriving DecidableEq

/-- The validated extractor wrapper: pub struct Validated<T>(pub T)
(validator.rs line 51; custom.rs, garde.rs and lib.rs declare the identical
type). The single public tuple field self.0 is val. -/
structure Validated (T : Type) where
  val : T
deriving DecidableEq

/-- Validated::into_inner (validator.rs lines 53-57): returns the owned inner
value. -/
def Validated.into_inner {T : Type} (v : Validated T) : T := v.val

/-- Deref for Validated (validator.rs lines 59-65): immutable access to the
wrapped value. -/
def Validated.deref {T : Type} (v : Validated T) : T := v.val

/-- DerefMut for Validated (validator.rs lines 67-71): mutable access to the
wrapped value. A mutation performed through the returned mutable reference is
modelled as a function T → T applied in place. -/
def Validated.deref_mut {T : Type} (f : T → T) (v : Validated T) : Validated T :=
  Validated.mk (f v.val)

/-- Debug for Validated (validator.rs lines 73-81):
f.debug_tuple("Validated").field(&self.0).finish(), which renders as the text
Validated( followed by the inner Debug rendering and a closing parenthesis.
The inner Debug impl is passed as a rendering function. -/
def Validated.debug_fmt {T : Type} (dbgT : T → String) (v : Validated T) : String :=
  "Validated(" ++ dbgT v.val ++ ")"

/-- An actix_web::Error produced by the pipeline, tagged with which of the
three Err branches of ValidatedFut::poll constructed it: the inner extractor
error converted by e.into(); the value returned by a registered error handler;
or the default Error wrapping the validation failure payload (whose response
rendering is Error::error_response). -/
inductive ActixError (A E H : Type) where
  | fromInner (e : A)
  | fromHandler (h : H)
  | fromValidation (e : E)
deriving DecidableEq

/-- State of ValidatedFut (validator.rs lines 86-90; identical in custom.rs,
garde.rs, lib.rs): the cloned request, the inner in-flight extraction (the
inner future is represented by the outcome its poll produces at this poll of
the pipeline), and the handler option captured at from_request time. -/
structure ValidatedFut (T A E H R : Type) where
  req : R
  futResult : Poll (Except A T)
  error_handler : Option (E → R → H)

/-- One call of the Future poll of ValidatedFut (validator.rs lines 99-124;
the same control flow appears in lib.rs 27-52, custom.rs 78-105 and garde.rs
72-99): propagate Pending from the inner future; otherwise on Ok data run
data.validate() — the backend trait method, a parameter here — and on a
validation failure invoke the registered handler if present, else build the
default Error; on inner Err convert the error. Everything after the inner
future resolves is a plain expression: the function returns ready. -/
def validatedFutPoll {T A E H R : Type} (validate : T → Except E Unit)
    (this : ValidatedFut T A E H R) :
    Poll (Except (ActixError A E H) (Validated T)) :=
  match this.futResult with
  | .pending => .pending
  | .ready res =>
    Poll.ready (match res with
      | .ok data =>
        match validate data with
        | .error e =>
          match this.error_handler with
          | some handler => .error (ActixError.fromHandler (handler e this.req))
          | none => .error (ActixError.fromValidation e)
        | .ok _ => .ok (Validated.mk data)
      | .error e => .error (ActixError.fromInner e))

/-- The extractor kinds that key the handler registry: one slot for the custom
backend, one for the garde backend, one for the validator backend (each
registration wrapper is a distinct Rust type, so the type-keyed app_data store
holds one slot per kind). -/
inductive ExtractorKind where
  | custom
  | garde
  | validator
deriving DecidableEq

/-- Modelled from the spec: the type-keyed app_data store of actix-web used by
the registration extension traits and the from_request lookup is external to
this repository; per the spec it is a per-application store holding at most
one error handler per extractor kind. -/
def Registry (H : Type) : Type := ExtractorKind → Option H

/-- Modelled from the spec: a fresh application has no handler registered. -/
def Registry.empty {H : Type} : Registry H := fun _ => none

/-- Modelled from the spec: App::app_data as used by validator_error_handler
(validator.rs 240-247), garde_error_handler (garde.rs 174-181) and
validation_error_handler (custom.rs 187-200, error.rs 87-94): stores the
handler keyed by extractor kind, overwriting any previous entry for that kind. -/
def Registry.app_data {H : Type} (r : Registry H) (k : ExtractorKind) (h : H) :
    Registry H :=
  fun q => if q = k then some h else r q

/-- Modelled from the spec: req.app_data lookup, returning the handler stored
for the kind if present, else none; a plain synchronous read. -/
def Registry.lookup {H : Type} (r : Registry H) (k : ExtractorKind) : Option H :=
  r k

/-- Validated::from_request (validator.rs lines 136-152; identical in
custom.rs, garde.rs and lib.rs): look up the error handler for this extractor
kind in the application data, start the inner extraction, and capture the
cloned request. The freshly started inner future is innerFut. -/
def Validated.from_request {T A E H R : Type} (reg : Registry (E → R → H))
    (k : ExtractorKind) (req : R) (innerFut : Poll (Except A T)) :
    ValidatedFut T A E H R :=
  { req := req, futResult := innerFut, error_handler := Registry.lookup reg k }

/-- A plain HTTP response: status code and body text, the two observables the
default ResponseError impls produce via HttpResponse::build(status).body(s). -/
structure HttpResponse where
  status : Nat
  body : String
deriving DecidableEq

namespace Validator

/-- A validator::ValidationError. The validator crate is an external
collaborator; the embedding keeps the one observable the repository reads from
it: the string its Display impl produces when formatted with a plain format
argument in error_response. -/
structure ValidationError where
  display : String
deriving DecidableEq

/-- validator::ValidationErrorsKind: Field holds the ordered errors of one
field, List maps indices of a sequence-typed field to nested trees (a BTreeMap
in the crate, modelled as an association list in its iteration order, which
for a BTreeMap is ascending key order), Struct holds the nested tree of a
struct-typed field. A ValidationErrors value (a HashMap from field name to
kind) is modelled as an association list in its stable iteration order. -/
inductive ValidationErrorsKind where
  | fieldKind (errs : List ValidationError)
  | listKind (entries : List (Nat × List (String × ValidationErrorsKind)))
  | structKind (sub : List (String × ValidationErrorsKind))

/-- validator::ValidationErrors, as stored in Error: the top-level map from
field name to kind, in its stable iteration order. -/
abbrev ValidationErrors := List (String × ValidationErrorsKind)

mutual
/-- The helper _flatten_errors (error.rs lines 42-74; duplicated verbatim at
validator.rs lines 192-225): flat_map over the map entries. The u16 indent is
modelled as Nat (no input in this development approaches the wrap at 2^16). -/
def _flatten_errors : ValidationErrors → Option String → Option Nat →
    List (Nat × String × ValidationError)
  | [], _, _ => []
  | (field, err) :: rest, path, indent =>
    flattenOneField field err path indent ++ _flatten_errors rest path indent

/-- Body of the flat_map closure of _flatten_errors for one map entry:
compute indent.unwrap_or(0) and the path extended by the field name
([path, field].join(".") when a path is present, else the bare field), then
dispatch on the kind. -/
def flattenOneField (field : String) (err : ValidationErrorsKind)
    (path : Option String) (indent : Option Nat) :
    List (Nat × String × ValidationError) :=
  let ind := indent.getD 0
  let actualPath := match path with
    | some p => p ++ "." ++ field
    | none => field
  match err with
  | .fieldKind field_errors => field_errors.map (fun e => (ind, actualPath, e))
  | .listKind list_error => flattenListEntries list_error actualPath ind
  | .structKind struct_errors =>
    _flatten_errors struct_errors (some actualPath) (some (ind + 1))

/-- The List arm of _flatten_errors: flat_map over the BTreeMap entries,
extending the path with the bracketed index and recursing one level deeper. -/
def flattenListEntries :
    List (Nat × List (String × ValidationErrorsKind)) → String → Nat →
    List (Nat × String × ValidationError)
  | [], _, _ => []
  | (index, errors) :: rest, actualPath, ind =>
    _flatten_errors errors (some (actualPath ++ "[" ++ toString index ++ "]"))
        (some (ind + 1))
      ++ flattenListEntries rest actualPath ind
end

/-- flatten_errors (error.rs lines 37-39; validator.rs lines 187-190). -/
def flatten_errors (errors : ValidationErrors) :
    List (Nat × String × ValidationError) :=
  _flatten_errors errors none none

/-- Error of the validator backend (validator.rs lines 154-157): wraps the
validator::ValidationErrors payload. -/
structure Error where
  errors : ValidationErrors

/-- Error::error_response of the validator backend (validator.rs lines
171-182; error.rs lines 16-31 renders the same format): status 400, the
header line, then per flattened error a line made of a tab, the field path, a
colon and a space, and the Display rendering of the error, joined by
newlines. -/
def Error.error_response (self : Error) : HttpResponse :=
  { status := 400
  , body := "Validation errors in fields:\n" ++
      String.intercalate "\n"
        ((flatten_errors self.errors).map
          (fun t => "\t" ++ t.2.1 ++ ": " ++ t.2.2.display)) }

end Validator

namespace Custom

/-- ValidationError of the custom backend (custom.rs lines 24-27): solely a
message string, no field path. -/
structure ValidationError where
  message : String
deriving DecidableEq

/-- Display for the custom ValidationError (custom.rs lines 29-33): writes the
message. -/
def ValidationError.display (e : ValidationError) : String := e.message

/-- Error of the custom backend (custom.rs lines 135-138): wraps the
Vec<ValidationError> returned by the Validate trait. -/
structure Error where
  errors : List ValidationError

/-- Error::error_response of the custom backend (custom.rs lines 160-172):
status 400, the header line, then per error a line made of a tab and the
Display rendering of the error (its message), joined by newlines. -/
def Error.error_response (self : Error) : HttpResponse :=
  { status := 400
  , body := "Validation errors in fields:\n" ++
      String.intercalate "\n" (self.errors.map (fun err => "\t" ++ err.display)) }

end Custom

namespace Garde

/-- A garde::validate::Error. The garde crate is an external collaborator; the
embedding keeps the observable the repository reads: the string returned by
error.message(). -/
structure GardeError where
  message : String
deriving DecidableEq

/-- garde::Report, as wrapped by the garde backend Error (garde.rs lines
130-133): iteration yields (path, error) pairs in insertion order; the
external path value is kept as the string its Display impl produces. -/
structure Report where
  entries : List (String × GardeError)

/-- Error of the garde backend (garde.rs lines 130-133). -/
structure Error where
  report : Report

/-- Error::error_response of the garde backend (garde.rs lines 147-159):
status 400, the header line, then per report entry a line made of the path,
a colon and a space, and the message — no leading tab — joined by newlines. -/
def Error.error_response (self : Error) : HttpResponse :=
  { status := 400
  , body := "Validation errors in fields:\n" ++
      String.intercalate "\n"
        (self.report.entries.map (fun t => t.1 ++ ": " ++ t.2.message)) }

end Garde

namespace Validator

/-- Shifting one flattened triple under a path prefix p and a depth offset d:
this is how the output of _flatten_errors at a nested position relates to the
output at the root. -/
def pathShift (p : String) (d : Nat) (t : Nat × String × ValidationError) :
    Nat × String × ValidationError :=
  (t.1 + d, p ++ "." ++ t.2.1, t.2.2)

theorem pathShift_comp (p q : String) (d e : Nat)
    (t : Nat × String × ValidationError) :
    pathShift p d (pathShift q e t) = pathShift (p ++ "." ++ q) (d + e) t := by
  simp [pathShift, String.append_assoc]
  omega

/-- Path and depth composition of the flattener: flattening below a path
prefix p at depth d is flattening at the root, with every emitted depth
shifted by d and every emitted path prefixed by the dotted p. The two unused
Option arguments let the statement follow the mutual recursion of
_flatten_errors for its functional induction. -/
theorem flatten_shift_main :
    ∀ (errs : ValidationErrors) (_ : Option String) (_ : Option Nat),
      ∀ (p : String) (d : Nat),
        _flatten_errors errs (some p) (some d)
          = (_flatten_errors errs none none).map (pathShift p d) := by
  refine _flatten_errors.induct
    (fun errs _ _ => ∀ p d,
      _flatten_errors errs (some p) (some d)
        = (_flatten_errors errs none none).map (pathShift p d))
    (fun field err _ _ => ∀ p d,
      flattenOneField field err (some p) (some d)
        = (flattenOneField field err none none).map (pathShift p d))
    (fun entries _ _ => ∀ (P p : String) (d : Nat),
      flattenListEntries entries (p ++ "." ++ P) d
        = (flattenListEntries entries P 0).map (pathShift p d))
    ?_ ?_ ?_ ?_ ?_ ?_ ?_
  · intro field path indent field_errors p d
    simp [flattenOneField, pathShift, List.map_map, Function.comp_def]
  · intro field path indent ind actualPath list_error ih p d
    simpa [flattenOneField] using ih field p d
  · intro field path indent ind actualPath struct_errors ih p d
    simp only [flattenOneField, Option.getD_some, Option.getD_none]
    rw [ih (p ++ "." ++ field) (d + 1), ih field 1, List.map_map]
    refine List.map_congr_left ?_
    intro t _
    simpa using (pathShift_comp p field d 1 t).symm
  · intro P d
    simp [flattenListEntries]
  · intro index errors rest actualPath ind ih1 ih2 P p d
    simp only [flattenListEntries]
    rw [List.map_append, ← ih2 P p d]
    congr 1
    rw [ih1 (p ++ "." ++ P ++ "[" ++ toString index ++ "]") (d + 1),
        ih1 (P ++ "[" ++ toString index ++ "]") 1, List.map_map]
    refine List.map_congr_left ?_
    intro t _
    have h := (pathShift_comp p (P ++ "[" ++ toString index ++ "]") d 1 t).symm
    simpa [String.append_assoc] using h
  · intro path indent p d
    simp [_flatten_errors]
  · intro field err rest path indent ih1 ih2 p d
    simp only [_flatten_errors]
    rw [List.map_append, ih1 p d, ih2 p d]

/-- The order in which the List arm of _flatten_errors visits the indices of a
sequence-typed field, read off the same traversal as flattenListEntries: the
stored association-list order of the BTreeMap entries. -/
def listVisitOrder : List (Nat × ValidationErrors) → List Nat
  | [] => []
  | (index, _) :: rest => index :: listVisitOrder rest

theorem listVisitOrder_eq_map_fst (entries : List (Nat × ValidationErrors)) :
    listVisitOrder entries = entries.map Prod.fst := by
  induction entries with
  | nil => rfl
  | cons head rest ih => cases head; simp [listVisitOrder, ih]

/-- The single error of the worked examples: the message of the repository's
own min-length-5 test rule. -/
def orderErr : ValidationError := { display := "length is lower than 5" }

/-- The tree of spec section 8: a violation on field name of the element at
index 2 of the sequence-typed field items, inside the struct-typed field
order. -/
def orderTree : ValidationErrors :=
  [("order", .structKind
      [("items", .listKind
          [(2, [("name", .fieldKind [orderErr])])])])]

/-- A validator-backend Error holding one violation of the repository's test
rule on the top-level field name. -/
def vErrSimple : Error := { errors := [("name", .fieldKind [orderErr])] }

end Validator

/-- A garde-backend Error holding the same single violation. -/
def Garde.gErrSimple : Garde.Error :=
  { report := { entries := [("name", { message := "length is lower than 5" })] } }

/-- A custom-backend Error holding the single error of custom.rs's own test. -/
def Custom.cErrSimple : Custom.Error :=
  { errors := [{ message := "name not long enough" }] }

/-- The validation rule of the repository's tests, as a plain function on Nat:
accept when the value is at least 5, else fail with the test message. -/
def exValidate : Nat → Except String Unit :=
  fun n => if 5 ≤ n then Except.ok () else Except.error "length is lower than 5"

/-- A concrete error handler for witnesses: renders the payload and request. -/
def exHandler : String → String → String :=
  fun e req => "custom: " ++ e ++ " @ " ++ req

/-- C1: for every input value that passes validation (the inner extractor
resolves Ok and validate() returns Ok), the pipeline's poll resolves to
Ok(Validated(v)) with v exactly the value the inner extractor produced; the
outcome is the same whatever handler is registered, so no handler and no
default error rendering takes part in this path. -/
theorem c1_valid_input_yields_validated_unchanged {T A E H R : Type}
    (validate : T → Except E Unit) (req : R) (eh : Option (E → R → H))
    (data : T) (hv : validate data = Except.ok ()) :
    validatedFutPoll validate
        { req := req, futResult := Poll.ready (Except.ok data : Except A T),
          error_handler := eh }
      = Poll.ready (Except.ok (Validated.mk data))
    ∧ validatedFutPoll validate
        { req := req, futResult := Poll.ready (Except.ok data : Except A T),
          error_handler := eh }
      = validatedFutPoll validate
        { req := req, futResult := Poll.ready (Except.ok data : Except A T),
          error_handler := none } := by
  constructor <;> simp [validatedFutPoll, hv]

/-- Witness for C1 at the repository's test rule: 6 is at least 5, and a poll
whose inner extraction produced 6 resolves to the validated value 6 even with
a handler registered. -/
theorem c1_witness :
    exValidate 6 = Except.ok ()
    ∧ validatedFutPoll exValidate
        { req := "r", futResult := Poll.ready (Except.ok 6 : Except String Nat),
          error_handler := some exHandler }
      = Poll.ready (Except.ok (Validated.mk 6)) :=
  ⟨rfl, (c1_valid_input_yields_validated_unchanged exValidate "r" (some exHandler) 6 rfl).1⟩

/-- C3: for every invalid input with a handler registered, the pipeline
resolves to Err of exactly the value the handler returns on the complete,
unflattened failure payload and the request handle; the default error value is
never produced. -/
theorem c3_registered_handler_overrides {T A E H R : Type}
    (validate : T → Except E Unit) (req : R) (handler : E → R → H)
    (data : T) (e : E) (hv : validate data = Except.error e) :
    validatedFutPoll validate
        { req := req, futResult := Poll.ready (Except.ok data : Except A T),
          error_handler := some handler }
      = Poll.ready (Except.error (ActixError.fromHandler (handler e req)))
    ∧ ∀ e2 : E, validatedFutPoll validate
        { req := req, futResult := Poll.ready (Except.ok data : Except A T),
          error_handler := some handler }
      ≠ Poll.ready (Except.error (ActixError.fromValidation e2)) := by
  have h1 : validatedFutPoll validate
      { req := req, futResult := Poll.ready (Except.ok data : Except A T),
        error_handler := some handler }
    = Poll.ready (Except.error (ActixError.fromHandler (handler e req))) := by
    simp [validatedFutPoll, hv]
  exact ⟨h1, fun e2 => by rw [h1]; simp⟩

/-- Witness for C3 at the repository's test rule: 4 is shorter than 5, and the
poll resolves to the value exHandler returns on the full payload and request. -/
theorem c3_witness :
    exValidate 4 = Except.error "length is lower than 5"
    ∧ validatedFutPoll exValidate
        { req := "r", futResult := Poll.ready (Except.ok 4 : Except String Nat),
          error_handler := some exHandler }
      = Poll.ready (Except.error
          (ActixError.fromHandler (exHandler "length is lower than 5" "r"))) :=
  ⟨rfl, (c3_registered_handler_overrides exValidate "r" exHandler 4
      "length is lower than 5" rfl).1⟩

/-- C4: whenever the inner extraction resolves to an error, the pipeline
resolves immediately to Err of that error, converted to the pipeline error
type and otherwise unchanged, for every validate function and every handler
registration: neither is consulted. -/
theorem c4_inner_error_passthrough {T A E H R : Type}
    (validate : T → Except E Unit) (req : R) (eh : Option (E → R → H)) (a : A) :
    validatedFutPoll validate
        { req := req, futResult := Poll.ready (Except.error a : Except A T),
          error_handler := eh }
      = Poll.ready (Except.error (ActixError.fromInner a)) := by
  simp [validatedFutPoll]

/-- C7: the pipeline's poll is Pending exactly when the inner extraction's
poll is Pending; once the inner extraction resolves, the same poll call
returns ready (the validation, branching and finishing are synchronous); and
while the inner extraction is pending, the outcome is Pending for every
validate function and every handler, so dropping the request at that point
invokes neither. -/
theorem c7_suspension_model {T A E H R : Type} (validate : T → Except E Unit)
    (fut : ValidatedFut T A E H R) :
    (validatedFutPoll validate fut = Poll.pending ↔ fut.futResult = Poll.pending)
    ∧ (∀ res : Except A T, fut.futResult = Poll.ready res →
        validatedFutPoll validate fut ≠ Poll.pending)
    ∧ (∀ (validate2 : T → Except E Unit) (eh : Option (E → R → H)) (req : R),
        validatedFutPoll validate2
          { req := req, futResult := (Poll.pending : Poll (Except A T)),
            error_handler := eh }
        = Poll.pending) := by
  refine ⟨?_, ?_, ?_⟩
  · cases h : fut.futResult with
    | ready res => simp [validatedFutPoll, h]
    | pending => simp [validatedFutPoll, h]
  · intro res h
    simp [validatedFutPoll, h]
  · intro validate2 eh req
    rfl

/-- Witness for C7: with a pending inner extraction the poll is pending, and
with a resolved inner extraction the same poll call is not pending. -/
theorem c7_witness :
    validatedFutPoll exValidate
        { req := "r", futResult := (Poll.pending : Poll (Except String Nat)),
          error_handler := some exHandler }
      = Poll.pending
    ∧ validatedFutPoll exValidate
        { req := "r", futResult := Poll.ready (Except.ok 6 : Except String Nat),
          error_handler := some exHandler }
      ≠ Poll.pending :=
  ⟨(c7_suspension_model exValidate
      { req := "r", futResult := (Poll.pending : Poll (Except String Nat)),
        error_handler := some exHandler }).2.2 exValidate (some exHandler) "r",
   (c7_suspension_model exValidate
      { req := "r", futResult := Poll.ready (Except.ok 6 : Except String Nat),
        error_handler := some exHandler }).2.1 (Except.ok 6) rfl⟩

/-- C2 counterexample: the validator backend is tree-shaped, yet its default
400 body tab-indents its lines: on a single violation of the repository's
test rule the body is the tabbed line, not the untabbed line the claim
requires of tree-shaped backends. -/
theorem c2_counterexample :
    Validator.Error.error_response Validator.vErrSimple
      = { status := 400,
          body := "Validation errors in fields:\n\tname: length is lower than 5" }
    ∧ (Validator.Error.error_response Validator.vErrSimple).body
      ≠ "Validation errors in fields:\nname: length is lower than 5" :=
  ⟨rfl, by decide⟩

/-- C2 as amended: with no handler registered the response has status 400 and
body the literal text Validation errors in fields: followed by a newline and
the flattened error lines joined by newlines, in depth-first field order; the
line shape is tab, path, colon-space, message for the tree-shaped validator
backend; path, colon-space, message without a tab for the tree-shaped garde
backend; and tab, message with no path and no colon for the flat-list custom
backend. The three concrete instances are the bodies asserted by the
repository's own tests. -/
theorem c2_amended_default_rendering :
    (∀ e : Validator.Error,
      Validator.Error.error_response e
        = { status := 400
          , body := "Validation errors in fields:\n" ++ String.intercalate "\n"
              ((Validator.flatten_errors e.errors).map
                (fun t => "\t" ++ t.2.1 ++ ": " ++ t.2.2.display)) })
    ∧ (∀ e : Garde.Error,
      Garde.Error.error_response e
        = { status := 400
          , body := "Validation errors in fields:\n" ++ String.intercalate "\n"
              (e.report.entries.map (fun t => t.1 ++ ": " ++ t.2.message)) })
    ∧ (∀ e : Custom.Error,
      Custom.Error.error_response e
        = { status := 400
          , body := "Validation errors in fields:\n" ++ String.intercalate "\n"
              (e.errors.map (fun err => "\t" ++ err.message)) })
    ∧ Validator.Error.error_response Validator.vErrSimple
      = { status := 400,
          body := "Validation errors in fields:\n\tname: length is lower than 5" }
    ∧ Garde.Error.error_response Garde.gErrSimple
      = { status := 400,
          body := "Validation errors in fields:\nname: length is lower than 5" }
    ∧ Custom.Error.error_response Custom.cErrSimple
      = { status := 400,
          body := "Validation errors in fields:\n\tname not long enough" } :=
  ⟨fun _ => rfl, fun _ => rfl, fun _ => rfl, rfl, rfl, rfl⟩

/-- C5 counterexample: flattening the tree with a violation on field name of
index 2 of the sequence field items inside the struct field order yields
exactly one entry, whose path is order.items[2].name — not the path
order.items[2] the claim announces: the violating field inside the indexed
element is always appended. -/
theorem c5_counterexample :
    Validator.flatten_errors Validator.orderTree
      = [(2, "order.items[2].name", Validator.orderErr)]
    ∧ ("order.items[2].name" : String) ≠ "order.items[2]" :=
  ⟨rfl, by decide⟩

/-- C5 as amended: the flattener builds paths by joining nested struct fields
with a dot and appending the bracketed index when descending into a sequence
field, left-to-right from the root, with depth 0 for top-level fields and
depth incremented by one per nesting level crossed — flattening below a
prefix p at depth d is root flattening shifted by pathShift p d; descending
into a struct field extends the path with dot and field and the depth by one;
descending into index i of a sequence field extends the field path with the
bracketed i and the depth by one; a top-level field emits depth 0 and the
bare field name. A violation at index 2 of a sequence field items inside a
struct field order flattens to order.items[2] followed by a dot and the
violating field name inside that element: order.items[2].name. -/
theorem c5_amended_path_composition :
    (∀ (errs : Validator.ValidationErrors) (p : String) (d : Nat),
      Validator._flatten_errors errs (some p) (some d)
        = (Validator._flatten_errors errs none none).map (Validator.pathShift p d))
    ∧ (∀ (field : String) (sub : Validator.ValidationErrors) (p : String) (d : Nat),
      Validator.flattenOneField field (.structKind sub) (some p) (some d)
        = Validator._flatten_errors sub (some (p ++ "." ++ field)) (some (d + 1)))
    ∧ (∀ (index : Nat) (sub : Validator.ValidationErrors)
        (rest : List (Nat × Validator.ValidationErrors)) (P : String) (d : Nat),
      Validator.flattenListEntries ((index, sub) :: rest) P d
        = Validator._flatten_errors sub
            (some (P ++ "[" ++ toString index ++ "]")) (some (d + 1))
          ++ Validator.flattenListEntries rest P d)
    ∧ (∀ (field : String) (errs : List Validator.ValidationError),
      Validator.flattenOneField field (.fieldKind errs) none none
        = errs.map (fun e => (0, field, e)))
    ∧ Validator.flatten_errors Validator.orderTree
      = [(2, "order.items[2].name", Validator.orderErr)] :=
  ⟨fun errs p d => Validator.flatten_shift_main errs none none p d,
   fun _ _ _ _ => rfl, fun _ _ _ _ _ => rfl, fun _ _ => rfl, rfl⟩

/-- C6: the flattener is pure and deterministic — the same tree always yields
the same ordered output; the output is in depth-first field order: the entries
of the first field (including everything below it) precede those of the later
fields, and the entries of the first index of a sequence field precede those
of the later indices; and the indices of a sequence field are visited in the
stored association order, which is ascending whenever the stored keys are
pairwise ascending (the BTreeMap invariant of the validator crate). -/
theorem c6_flattener_pure_deterministic :
    (∀ t : Validator.ValidationErrors,
      Validator.flatten_errors t = Validator.flatten_errors t)
    ∧ (∀ (field : String) (err : Validator.ValidationErrorsKind)
        (rest : Validator.ValidationErrors) (path : Option String)
        (indent : Option Nat),
      Validator._flatten_errors ((field, err) :: rest) path indent
        = Validator.flattenOneField field err path indent
          ++ Validator._flatten_errors rest path indent)
    ∧ (∀ (index : Nat) (sub : Validator.ValidationErrors)
        (rest : List (Nat × Validator.ValidationErrors)) (P : String) (d : Nat),
      Validator.flattenListEntries ((index, sub) :: rest) P d
        = Validator._flatten_errors sub
            (some (P ++ "[" ++ toString index ++ "]")) (some (d + 1))
          ++ Validator.flattenListEntries rest P d)
    ∧ (∀ entries : List (Nat × Validator.ValidationErrors),
      List.Pairwise (fun a b => a < b) (entries.map Prod.fst) →
        List.Pairwise (fun a b => a < b) (Validator.listVisitOrder entries)) :=
  ⟨fun _ => rfl, fun _ _ _ _ _ => rfl, fun _ _ _ _ _ => rfl,
   fun entries h => by rwa [Validator.listVisitOrder_eq_map_fst]⟩

/-- Witness for C6: on a sequence field with entries stored at the ascending
indices 0 and 2, the visit order is ascending. -/
theorem c6_witness :
    List.Pairwise (fun a b => a < b)
      (Validator.listVisitOrder
        [(0, ([] : Validator.ValidationErrors)), (2, [])]) :=
  (c6_flattener_pure_deterministic).2.2.2
    [(0, ([] : Validator.ValidationErrors)), (2, [])] (by decide)

/-- C8: the lookup performed when extraction begins returns the handler
registered on the application for the extractor kind if one exists and none
otherwise; the store holds at most one handler per kind, other kinds are
untouched by a registration, and when several handlers are registered for the
same kind the last registration wins. -/
theorem c8_registry_lookup_last_wins {H : Type} (r : Registry H)
    (k : ExtractorKind) (h1 h2 : H) :
    Registry.lookup (Registry.app_data r k h1) k = some h1
    ∧ (∀ q : ExtractorKind, q ≠ k →
        Registry.lookup (Registry.app_data r k h1) q = Registry.lookup r q)
    ∧ Registry.lookup (Registry.app_data (Registry.app_data r k h1) k h2) k
        = some h2
    ∧ (∀ q : ExtractorKind,
        Registry.lookup (Registry.empty : Registry H) q = none)
    ∧ (∀ (T A E R : Type) (reg : Registry (E → R → H)) (q : ExtractorKind)
        (req : R) (fut : Poll (Except A T)),
        (Validated.from_request reg q req fut).error_handler
          = Registry.lookup reg q) := by
  refine ⟨?_, ?_, ?_, ?_, ?_⟩
  · simp [Registry.lookup, Registry.app_data]
  · intro q hq
    simp [Registry.lookup, Registry.app_data, hq]
  · simp [Registry.lookup, Registry.app_data]
  · intro q
    rfl
  · intro T A E R reg q req fut
    rfl

/-- Witness for C8: registering 1 then 2 for the custom kind leaves 2 in the
custom slot, and the garde slot of an application that only registered for
the custom kind is untouched. -/
theorem c8_witness :
    Registry.lookup
        (Registry.app_data
          (Registry.app_data (Registry.empty : Registry Nat)
            ExtractorKind.custom 1)
          ExtractorKind.custom 2)
        ExtractorKind.custom
      = some 2
    ∧ Registry.lookup
        (Registry.app_data (Registry.empty : Registry Nat)
          ExtractorKind.custom 1)
        ExtractorKind.garde
      = Registry.lookup (Registry.empty : Registry Nat) ExtractorKind.garde :=
  ⟨(c8_registry_lookup_last_wins (Registry.empty : Registry Nat)
      ExtractorKind.custom 1 2).2.2.1,
   (c8_registry_lookup_last_wins (Registry.empty : Registry Nat)
      ExtractorKind.custom 1 2).2.1 ExtractorKind.garde (by decide)⟩

/-- C9: the Validated decorator is transparent — it can be constructed
directly from any value t; Deref yields exactly the wrapped t; a mutation
applied through DerefMut acts exactly on the wrapped t; into_inner returns
the owned t unchanged; and the Debug rendering is the text Validated(
followed by the inner Debug rendering of t and a closing parenthesis. -/
theorem c9_validated_transparency {T : Type} (t : T) (f : T → T)
    (dbgT : T → String) :
    Validated.deref (Validated.mk t) = t
    ∧ Validated.deref_mut f (Validated.mk t) = Validated.mk (f t)
    ∧ Validated.into_inner (Validated.mk t) = t
    ∧ Validated.debug_fmt dbgT (Validated.mk t) = "Validated(" ++ dbgT t ++ ")" :=
  ⟨rfl, rfl, rfl, rfl⟩

/-- C10: a custom-backend ValidationError consists solely of a message string
(its Display is that message and it is determined by it), and the default 400
body of the custom backend renders each error as a line consisting of a tab
followed by that message alone: no path, no colon separator. -/
theorem c10_custom_flat_list_lines (e : Custom.Error) :
    (Custom.Error.error_response e).status = 400
    ∧ (Custom.Error.error_response e).body
        = "Validation errors in fields:\n"
          ++ String.intercalate "\n" (e.errors.map (fun err => "\t" ++ err.message))
    ∧ (∀ err : Custom.ValidationError,
        err.display = err.message ∧ err = Custom.ValidationError.mk err.message) :=
  ⟨rfl, rfl, fun _ => ⟨rfl, rfl⟩⟩
